import Mathlib

set_option autoImplicit false

/-!
Shallow embedding of the property-listing CRUD service.

The repository ships `backend/main.py` plus its unit tests; the modules
`backend/model.py`, `backend/schema.py`, `backend/crud.py` and
`backend/router.py` are referenced by the tests and the spec but their
source is not in the tree, so those parts are modelled from the spec
(each such definition says so in its doc comment).  `price` and `area`
are floating-point in the source; no arithmetic is ever performed on
them (they only pass through validation and storage), so they are
embedded as rationals.
-/

/-- Modelled from the spec: `NumBedrooms` enumeration of `backend/model.py`
(missing from the tree), the closed 8-value bedroom-count domain
\x7bT0, T1, T2, T3, T4, T5, T6, T6+\x7d. -/
inductive NumBedrooms where
  | t0
  | t1
  | t2
  | t3
  | t4
  | t5
  | t6
  | t6_plus
deriving DecidableEq, Repr

/-- Wire (string) representation of each `NumBedrooms` member. -/
def NumBedrooms.wire : NumBedrooms → String
  | .t0 => "T0"
  | .t1 => "T1"
  | .t2 => "T2"
  | .t3 => "T3"
  | .t4 => "T4"
  | .t5 => "T5"
  | .t6 => "T6"
  | .t6_plus => "T6+"

/-- Modelled from the spec: the `Property` entity of `backend/model.py`
(missing from the tree).  `id` and `created_at` are store-assigned, hence
`Option`: `none` before the store populates them (the unit tests in
`src/tests/unit/test_models.py` assert both are `None` on a fresh,
not-yet-inserted instance). -/
structure Property where
  id : Option Nat
  description : String
  number_bedrooms : NumBedrooms
  price : Rat
  area : Rat
  location : String
  created_at : Option Nat
deriving DecidableEq, Repr

/-- Modelled from the spec: the `Message` schema of `backend/schema.py`
(missing from the tree), a single free-text field. -/
structure Message where
  message : String
deriving DecidableEq, Repr

/-- Modelled from the spec: the validated `PropertyRequest` create schema of
`backend/schema.py` (missing from the tree): all five client fields
mandatory, `number_bedrooms` already a member of the enumeration. -/
structure PropertyRequest where
  description : String
  number_bedrooms : NumBedrooms
  price : Rat
  area : Rat
  location : String
deriving DecidableEq, Repr

/-- Wire-level create payload, before schema validation: `number_bedrooms`
is still an arbitrary string. -/
structure RawPropertyRequest where
  description : String
  number_bedrooms : String
  price : Rat
  area : Rat
  location : String
deriving DecidableEq, Repr

/-- A field of a wire-level update payload: absent from the JSON body,
explicitly `null`, or carrying a value. -/
inductive WireField (α : Type) where
  | absent
  | null
  | val (v : α)
deriving DecidableEq, Repr

/-- A field of a validated update request: omitted, or deliberately set.
The two constructors are the presence marker the spec's design notes call
for (omitted fields must be distinguishable from set ones). -/
inductive FieldUpdate (α : Type) where
  | absent
  | set (v : α)
deriving DecidableEq, Repr

/-- New value of a field: the old value if the update omits the field,
the supplied value if it sets it. -/
def FieldUpdate.apply {α : Type} : FieldUpdate α → α → α
  | .absent, old => old
  | .set v, _ => v

/-- Modelled from the spec: the validated `PropertyUpdateRequest` schema of
`backend/schema.py` (missing from the tree): every field optional, any
subset may be supplied. -/
structure PropertyUpdateRequest where
  description : FieldUpdate String
  number_bedrooms : FieldUpdate NumBedrooms
  price : FieldUpdate Rat
  area : FieldUpdate Rat
  location : FieldUpdate String
deriving DecidableEq, Repr

/-- Wire-level update payload, before schema validation. -/
structure RawPropertyUpdateRequest where
  description : WireField String
  number_bedrooms : WireField String
  price : WireField Rat
  area : WireField Rat
  location : WireField String
deriving DecidableEq, Repr

/-- Structured schema-validation failure: the offending field and the
reason (spec: "a structured error listing the offending field"). -/
inductive ValidationIssue where
  | invalidEnum (fieldName : String) (given : String)
  | nullNotAllowed (fieldName : String)
deriving DecidableEq, Repr

/-- Parse a wire string into the bedroom enumeration; `none` for any
string outside the closed set. -/
def parseNumBedrooms (s : String) : Option NumBedrooms :=
  if s = "T0" then some .t0
  else if s = "T1" then some .t1
  else if s = "T2" then some .t2
  else if s = "T3" then some .t3
  else if s = "T4" then some .t4
  else if s = "T5" then some .t5
  else if s = "T6" then some .t6
  else if s = "T6+" then some .t6_plus
  else none

/-- Modelled from the spec: validation of a create payload
(`backend/schema.py` missing from the tree).  The only enforced
constraint is membership of `number_bedrooms` in the enumeration; no
numeric-range or string-content checks. -/
def validatePropertyRequest (raw : RawPropertyRequest) :
    Except ValidationIssue PropertyRequest :=
  match parseNumBedrooms raw.number_bedrooms with
  | none => .error (.invalidEnum "number_bedrooms" raw.number_bedrooms)
  | some nb =>
      .ok { description := raw.description
            number_bedrooms := nb
            price := raw.price
            area := raw.area
            location := raw.location }

/-- Validate one optional update field whose values need no further check.
Absent passes through as the omitted marker; an explicit `null` is a
validation failure (entity columns are non-nullable), keeping it distinct
from an omitted field. -/
def validatePlainField {α : Type} (fieldName : String) :
    WireField α → Except ValidationIssue (FieldUpdate α)
  | .absent => .ok .absent
  | .null => .error (.nullNotAllowed fieldName)
  | .val v => .ok (.set v)

/-- Validate the optional `number_bedrooms` update field: a present value
is still checked against the enumeration. -/
def validateBedroomsField :
    WireField String → Except ValidationIssue (FieldUpdate NumBedrooms)
  | .absent => .ok .absent
  | .null => .error (.nullNotAllowed "number_bedrooms")
  | .val v =>
      match parseNumBedrooms v with
      | some nb => .ok (.set nb)
      | none => .error (.invalidEnum "number_bedrooms" v)

/-- Modelled from the spec: validation of an update payload
(`backend/schema.py` missing from the tree).  Fields are validated in
declaration order; the first failure is reported. -/
def validatePropertyUpdateRequest (raw : RawPropertyUpdateRequest) :
    Except ValidationIssue PropertyUpdateRequest :=
  match validatePlainField "description" raw.description with
  | .error e => .error e
  | .ok d =>
    match validateBedroomsField raw.number_bedrooms with
    | .error e => .error e
    | .ok nb =>
      match validatePlainField "price" raw.price with
      | .error e => .error e
      | .ok pr =>
        match validatePlainField "area" raw.area with
        | .error e => .error e
        | .ok ar =>
          match validatePlainField "location" raw.location with
          | .error e => .error e
          | .ok lo =>
              .ok { description := d
                    number_bedrooms := nb
                    price := pr
                    area := ar
                    location := lo }

/-- The persistent store: the `properties` table plus its id sequence and
insertion clock (source of `created_at` timestamps). -/
structure Store where
  rows : List Property
  nextId : Nat
  clock : Nat
deriving DecidableEq, Repr

/-- Data Access Layer failure vocabulary: an operation targeted a
non-existent `id` (spec §7, `NotFoundError`). -/
inductive PropError where
  | notFound
deriving DecidableEq, Repr

/-- Row predicate: does this row carry the given store-assigned id? -/
def Property.hasId (p : Property) (i : Nat) : Bool :=
  p.id == some i

/-- Modelled from the spec: `add_property` of `backend/crud.py` (missing
from the tree).  Inserts a new row built from the request, the store
assigning `id` and `created_at`; commits; returns the refreshed row. -/
def add_property (s : Store) (req : PropertyRequest) : Store × Property :=
  let p : Property :=
    { id := some s.nextId
      description := req.description
      number_bedrooms := req.number_bedrooms
      price := req.price
      area := req.area
      location := req.location
      created_at := some s.clock }
  ({ rows := s.rows ++ [p], nextId := s.nextId + 1, clock := s.clock + 1 }, p)

/-- Modelled from the spec: `get_all_properties` of `backend/crud.py`
(missing from the tree).  Offset-based pagination: skip, then limit,
over the id-ascending row sequence.  No side effect. -/
def get_all_properties (s : Store) (limit skip : Nat) : List Property :=
  (s.rows.drop skip).take limit

/-- Modelled from the spec: `get_property_by_id` of `backend/crud.py`
(missing from the tree).  Returns the matching row or the not-found
indicator.  No side effect. -/
def get_property_by_id (s : Store) (property_id : Nat) :
    Except PropError Property :=
  match s.rows.find? (fun p => p.hasId property_id) with
  | some p => .ok p
  | none => .error .notFound

/-- Apply a partial update to a row: exactly the fields present in the
request change; `id` and `created_at` are never touched. -/
def applyUpdate (p : Property) (u : PropertyUpdateRequest) : Property :=
  { id := p.id
    description := u.description.apply p.description
    number_bedrooms := u.number_bedrooms.apply p.number_bedrooms
    price := u.price.apply p.price
    area := u.area.apply p.area
    location := u.location.apply p.location
    created_at := p.created_at }

/-- Modelled from the spec: `update_property` of `backend/crud.py`
(missing from the tree).  Not-found if no row matches; otherwise applies
only the supplied fields to the existing row, commits, returns the
refreshed row.  On failure the store is unchanged (the per-call
transaction rolls back). -/
def update_property (s : Store) (property_id : Nat)
    (u : PropertyUpdateRequest) : Store × Except PropError Property :=
  match s.rows.find? (fun p => p.hasId property_id) with
  | none => (s, .error .notFound)
  | some p =>
      let p' := applyUpdate p u
      ({ s with rows := s.rows.map (fun q => if q.hasId property_id then p' else q) },
       .ok p')

/-- Modelled from the spec: `delete_property` of `backend/crud.py`
(missing from the tree).  Not-found if no row matches; otherwise removes
the row, commits, returns a success indicator.  On failure the store is
unchanged (the per-call transaction rolls back). -/
def delete_property (s : Store) (property_id : Nat) :
    Store × Except PropError Bool :=
  if s.rows.any (fun p => p.hasId property_id) then
    ({ s with rows := s.rows.filter (fun p => ! p.hasId property_id) }, .ok true)
  else
    (s, .error .notFound)

/-- Well-formedness of the store: every row's `id` is populated and below
the id sequence, and rows sit in strictly ascending id order. -/
def idAsc (a b : Property) : Prop :=
  ∃ i j, a.id = some i ∧ b.id = some j ∧ i < j

/-- Store invariant maintained by the Data Access Layer. -/
def Store.wf (s : Store) : Prop :=
  (∀ p ∈ s.rows, ∃ i, p.id = some i ∧ i < s.nextId) ∧ s.rows.Pairwise idAsc

/-- The store of a freshly created database: no rows, id sequence at 1. -/
def emptyStore : Store :=
  { rows := [], nextId := 1, clock := 1 }

/-- An HTTP response of the Endpoint Layer, shaped by the spec's route
table (§4.4). -/
inductive Response where
  | propertyResp (status : Nat) (p : Property)
  | propertiesResp (ps : List Property)
  | messageResp (status : Nat) (m : Message)
  | validationFailed (issue : ValidationIssue)
  | notFoundResp
deriving DecidableEq, Repr

/-- HTTP status code carried by a response. -/
def Response.status : Response → Nat
  | .propertyResp st _ => st
  | .propertiesResp _ => 200
  | .messageResp st _ => st
  | .validationFailed _ => 422
  | .notFoundResp => 404

/-- Modelled from the spec: POST /property/ of `backend/router.py`
(missing from the tree).  Validates the inbound schema; on failure
answers 422 without invoking the Data Access Layer; on success inserts
and answers 201 with the stored row. -/
def post_property (s : Store) (raw : RawPropertyRequest) : Store × Response :=
  match validatePropertyRequest raw with
  | .error e => (s, .validationFailed e)
  | .ok req =>
      let sp := add_property s req
      (sp.1, .propertyResp 201 sp.2)

/-- Modelled from the spec: GET /property/ of `backend/router.py`
(missing from the tree). -/
def read_properties (s : Store) (limit skip : Nat) : Store × Response :=
  (s, .propertiesResp (get_all_properties s limit skip))

/-- Modelled from the spec: GET /property/\x7bid\x7d of `backend/router.py`
(missing from the tree).  Maps the not-found indicator to 404. -/
def read_property (s : Store) (property_id : Nat) : Store × Response :=
  match get_property_by_id s property_id with
  | .ok p => (s, .propertyResp 200 p)
  | .error .notFound => (s, .notFoundResp)

/-- Modelled from the spec: PATCH /property/\x7bid\x7d of `backend/router.py`
(missing from the tree).  Validates first (422 before any store access),
then maps not-found to 404 and success to 200. -/
def patch_property (s : Store) (property_id : Nat)
    (raw : RawPropertyUpdateRequest) : Store × Response :=
  match validatePropertyUpdateRequest raw with
  | .error e => (s, .validationFailed e)
  | .ok u =>
      match update_property s property_id u with
      | (s', .ok p) => (s', .propertyResp 200 p)
      | (_, .error .notFound) => (s, .notFoundResp)

/-- Modelled from the spec: DELETE /property/\x7bid\x7d of
`backend/router.py` (missing from the tree).  Maps not-found to 404 and
success to 200 with a Message body. -/
def delete_property_endpoint (s : Store) (property_id : Nat) :
    Store × Response :=
  match delete_property s property_id with
  | (s', .ok _) => (s', .messageResp 200 { message := "Property deleted" })
  | (_, .error .notFound) => (s, .notFoundResp)

/-- `get_root` handler of `backend/main.py` (present in the tree): GET /
answers the fixed JSON body. -/
def get_root : Message :=
  { message := "Hello World!" }

/-- The GET / route of the application: no store access at all. -/
def root_endpoint (s : Store) : Store × Response :=
  (s, .messageResp 200 get_root)

/-- One invocation of one of the five Data Access Layer operations. -/
inductive CrudCall where
  | add (req : PropertyRequest)
  | listAll (limit skip : Nat)
  | get (property_id : Nat)
  | update (property_id : Nat) (u : PropertyUpdateRequest)
  | delete (property_id : Nat)

/-- Result vocabulary shared by the five operations. -/
inductive CrudResult where
  | one (p : Property)
  | many (ps : List Property)
  | done (ok : Bool)
deriving DecidableEq, Repr

/-- Uniform view of the five Data Access Layer operations: each call
yields the store after the call together with its outcome. -/
def runCrud (s : Store) : CrudCall → Store × Except PropError CrudResult
  | .add req =>
      let sp := add_property s req
      (sp.1, .ok (.one sp.2))
  | .listAll limit skip => (s, .ok (.many (get_all_properties s limit skip)))
  | .get property_id => (s, (get_property_by_id s property_id).map .one)
  | .update property_id u =>
      let sr := update_property s property_id u
      (sr.1, sr.2.map .one)
  | .delete property_id =>
      let sr := delete_property s property_id
      (sr.1, sr.2.map .done)

/-- Sample create request (the spec's §8 scenario). -/
def req0 : PropertyRequest :=
  { description := "Flat"
    number_bedrooms := .t2
    price := 1200
    area := 60
    location := "Porto" }

/-- Second sample create request. -/
def req1 : PropertyRequest :=
  { description := "Beach house"
    number_bedrooms := .t3
    price := 3500
    area := 180
    location := "Algarve" }

/-- Third sample create request. -/
def req2 : PropertyRequest :=
  { description := "Studio"
    number_bedrooms := .t0
    price := 700
    area := 30
    location := "Braga" }

/-- Store after one insert into the fresh store. -/
def store1 : Store := (add_property emptyStore req0).1

/-- Store after two inserts. -/
def store2 : Store := (add_property store1 req1).1

/-- Store after three inserts. -/
def store3 : Store := (add_property store2 req2).1

/-- Update payload supplying no field at all. -/
def rawUpdateAbsent : RawPropertyUpdateRequest :=
  { description := .absent
    number_bedrooms := .absent
    price := .absent
    area := .absent
    location := .absent }

/-- Validated form of `rawUpdateAbsent`. -/
def updateAbsent : PropertyUpdateRequest :=
  { description := .absent
    number_bedrooms := .absent
    price := .absent
    area := .absent
    location := .absent }

/-- Update payload supplying a subset of the fields. -/
def rawUpdateSubset : RawPropertyUpdateRequest :=
  { description := .val "Renovated flat"
    number_bedrooms := .val "T3"
    price := .absent
    area := .absent
    location := .val "Lisbon" }

/-- Validated form of `rawUpdateSubset`. -/
def updateSubset : PropertyUpdateRequest :=
  { description := .set "Renovated flat"
    number_bedrooms := .set .t3
    price := .absent
    area := .absent
    location := .set "Lisbon" }

/-- Create payload with an out-of-enumeration bedrooms value. -/
def rawBadBedrooms : RawPropertyRequest :=
  { description := "Test property"
    number_bedrooms := "T9"
    price := 1000
    area := 50
    location := "Test" }

/-- Update payload with an out-of-enumeration bedrooms value. -/
def rawUpdateBadBedrooms : RawPropertyUpdateRequest :=
  { description := .absent
    number_bedrooms := .val "T9"
    price := .absent
    area := .absent
    location := .absent }

/-- Create payload with a negative price and zero area. -/
def rawNegative : RawPropertyRequest :=
  { description := "Odd numbers"
    number_bedrooms := "T1"
    price := -100
    area := 0
    location := "Test" }

/-! ### Helper lemmas -/

theorem hasId_eq_false {q : Property} {n : Nat} (h : q.id ≠ some n) :
    q.hasId n = false := by
  rw [Property.hasId, beq_eq_false_iff_ne]
  exact h

theorem ne_of_lt_nextId {q : Property} {n : Nat}
    (h : ∃ i, q.id = some i ∧ i < n) : q.id ≠ some n := by
  obtain ⟨i, hi, hlt⟩ := h
  rw [hi]
  intro hc
  have := Option.some.inj hc
  omega

theorem find?_hasId_none {rows : List Property} {n : Nat}
    (h : ∀ q ∈ rows, q.id ≠ some n) :
    rows.find? (fun q => q.hasId n) = none :=
  List.find?_eq_none.mpr fun q hq => by
    simp [hasId_eq_false (h q hq)]

theorem find?_append_none {α : Type} {p : α → Bool} {l₁ : List α} (l₂ : List α)
    (h : l₁.find? p = none) : (l₁ ++ l₂).find? p = l₂.find? p := by
  induction l₁ with
  | nil => simp
  | cons a t ih =>
      by_cases hpa : p a
      · rw [List.find?_cons_of_pos _ hpa] at h
        cases h
      · rw [List.find?_cons_of_neg _ hpa] at h
        rw [List.cons_append, List.find?_cons_of_neg _ hpa]
        exact ih h

theorem find?_add {rows : List Property} {n : Nat} {p : Property}
    (hfresh : ∀ q ∈ rows, q.id ≠ some n) (hp : p.id = some n) :
    (rows ++ [p]).find? (fun q => q.hasId n) = some p := by
  rw [find?_append_none _ (find?_hasId_none hfresh)]
  exact List.find?_cons_of_pos _ (by simp [Property.hasId, hp])

theorem map_frame {rows : List Property} {n : Nat} {p' : Property}
    (h : ∀ q ∈ rows, q.id ≠ some n) :
    rows.map (fun q => if q.hasId n then p' else q) = rows := by
  induction rows with
  | nil => rfl
  | cons a t ih =>
      have ha : a.hasId n = false := hasId_eq_false (h a (List.mem_cons_self a t))
      have ht := ih fun q hq => h q (List.mem_cons_of_mem a hq)
      simp [ha, ht]

theorem emptyStore_wf : emptyStore.wf := by
  constructor
  · intro p hp
    simp [emptyStore] at hp
  · simp [emptyStore]

theorem wf_add {s : Store} (req : PropertyRequest) (hwf : s.wf) :
    (add_property s req).1.wf := by
  obtain ⟨hb, hp⟩ := hwf
  constructor
  · intro p hp'
    simp only [add_property, List.mem_append, List.mem_singleton] at hp'
    rcases hp' with hmem | rfl
    · obtain ⟨i, hi, hlt⟩ := hb p hmem
      exact ⟨i, hi, by simp [add_property]; omega⟩
    · exact ⟨s.nextId, rfl, by simp [add_property]⟩
  · show (s.rows ++ [_]).Pairwise idAsc
    rw [List.pairwise_append]
    refine ⟨hp, List.pairwise_singleton _ _, ?_⟩
    intro a ha b hb'
    simp only [List.mem_singleton] at hb'
    subst hb'
    obtain ⟨i, hi, hlt⟩ := hb a ha
    exact ⟨i, s.nextId, hi, rfl, hlt⟩

theorem store3_wf : store3.wf := by
  show (add_property (add_property (add_property emptyStore req0).1 req1).1 req2).1.wf
  exact wf_add _ (wf_add _ (wf_add _ emptyStore_wf))

/-! ### Claim theorems -/

/-- C1: for every well-formed store and every valid create request,
`add_property` followed by `get_property_by_id` on the returned id yields
exactly the returned Property; its description, number_bedrooms, price,
area and location equal the client-supplied values, and its `id` and
`created_at` are populated by the store. -/
theorem add_then_get_roundtrip (s : Store) (req : PropertyRequest)
    (hwf : s.wf) :
    ∃ i, (add_property s req).2.id = some i ∧
      ((add_property s req).2.created_at).isSome = true ∧
      get_property_by_id (add_property s req).1 i = .ok (add_property s req).2 ∧
      (add_property s req).2.description = req.description ∧
      (add_property s req).2.number_bedrooms = req.number_bedrooms ∧
      (add_property s req).2.price = req.price ∧
      (add_property s req).2.area = req.area ∧
      (add_property s req).2.location = req.location := by
  obtain ⟨hb, _⟩ := hwf
  refine ⟨s.nextId, rfl, rfl, ?_, rfl, rfl, rfl, rfl, rfl⟩
  have hfresh : ∀ q ∈ s.rows, q.id ≠ some s.nextId :=
    fun q hq => ne_of_lt_nextId (hb q hq)
  have hrows : (add_property s req).1.rows = s.rows ++ [(add_property s req).2] := rfl
  have hfind := find?_add (p := (add_property s req).2) hfresh rfl
  simp [get_property_by_id, hrows, hfind]

theorem add_then_get_roundtrip_witness :
    ∃ i, (add_property emptyStore req0).2.id = some i ∧
      ((add_property emptyStore req0).2.created_at).isSome = true ∧
      get_property_by_id (add_property emptyStore req0).1 i =
        .ok (add_property emptyStore req0).2 ∧
      (add_property emptyStore req0).2.description = req0.description ∧
      (add_property emptyStore req0).2.number_bedrooms = req0.number_bedrooms ∧
      (add_property emptyStore req0).2.price = req0.price ∧
      (add_property emptyStore req0).2.area = req0.area ∧
      (add_property emptyStore req0).2.location = req0.location :=
  add_then_get_roundtrip emptyStore req0 emptyStore_wf

/-- C4: create, then update with any subset of fields, then get: the
refreshed Property has the new value for every supplied field and the
pre-update value for every omitted field, with `id` and `created_at`
untouched. -/
theorem create_update_get_frame (s : Store) (req : PropertyRequest)
    (u : PropertyUpdateRequest) (hwf : s.wf) :
    ∃ s2 p', update_property (add_property s req).1 s.nextId u = (s2, .ok p') ∧
      get_property_by_id s2 s.nextId = .ok p' ∧
      p'.description = u.description.apply req.description ∧
      p'.number_bedrooms = u.number_bedrooms.apply req.number_bedrooms ∧
      p'.price = u.price.apply req.price ∧
      p'.area = u.area.apply req.area ∧
      p'.location = u.location.apply req.location ∧
      p'.id = some s.nextId ∧
      p'.created_at = (add_property s req).2.created_at := by
  obtain ⟨hb, _⟩ := hwf
  have hfresh : ∀ q ∈ s.rows, q.id ≠ some s.nextId :=
    fun q hq => ne_of_lt_nextId (hb q hq)
  have hrows : (add_property s req).1.rows = s.rows ++ [(add_property s req).2] := rfl
  have hfind := find?_add (p := (add_property s req).2) hfresh rfl
  have hupd : update_property (add_property s req).1 s.nextId u =
      ({ (add_property s req).1 with
          rows := ((add_property s req).1.rows).map
            (fun q => if q.hasId s.nextId then applyUpdate (add_property s req).2 u else q) },
        .ok (applyUpdate (add_property s req).2 u)) := by
    rw [update_property, hrows, hfind]
  refine ⟨_, _, hupd, ?_, rfl, rfl, rfl, rfl, rfl, rfl, rfl⟩
  have hmap : ((add_property s req).1.rows).map
      (fun q => if q.hasId s.nextId then applyUpdate (add_property s req).2 u else q) =
      s.rows ++ [applyUpdate (add_property s req).2 u] := by
    rw [hrows, List.map_append, map_frame hfresh]
    simp [Property.hasId, show (add_property s req).2.id = some s.nextId from rfl]
  have hfind2 := find?_add (p := applyUpdate (add_property s req).2 u) hfresh rfl
  simp [get_property_by_id, hmap, hfind2]

theorem create_update_get_frame_witness :
    ∃ s2 p', update_property (add_property store1 req1).1 store1.nextId updateSubset =
        (s2, .ok p') ∧
      get_property_by_id s2 store1.nextId = .ok p' ∧
      p'.description = updateSubset.description.apply req1.description ∧
      p'.number_bedrooms = updateSubset.number_bedrooms.apply req1.number_bedrooms ∧
      p'.price = updateSubset.price.apply req1.price ∧
      p'.area = updateSubset.area.apply req1.area ∧
      p'.location = updateSubset.location.apply req1.location ∧
      p'.id = some store1.nextId ∧
      p'.created_at = (add_property store1 req1).2.created_at :=
  create_update_get_frame store1 req1 updateSubset (wf_add _ emptyStore_wf)

/-- C5: over any well-formed store holding N rows, pagination with limit L
and skip S returns exactly min(L, max(0, N - S)) rows, in strictly
ascending id order. -/
theorem get_all_properties_pagination (s : Store) (L S : Nat) (hwf : s.wf) :
    ((get_all_properties s L S).length : Int) =
      min (L : Int) (max 0 ((s.rows.length : Int) - (S : Int))) ∧
    (get_all_properties s L S).Pairwise idAsc := by
  constructor
  · have h : (get_all_properties s L S).length = min L (s.rows.length - S) := by
      simp [get_all_properties]
    omega
  · exact hwf.2.sublist
      ((List.take_sublist L (s.rows.drop S)).trans (List.drop_sublist S s.rows))

theorem get_all_properties_pagination_witness :
    ((get_all_properties store3 2 1).length : Int) =
      min ((2 : Nat) : Int) (max 0 ((store3.rows.length : Int) - ((1 : Nat) : Int))) ∧
    (get_all_properties store3 2 1).Pairwise idAsc :=
  get_all_properties_pagination store3 2 1 store3_wf

/-- C3: when no stored row carries the requested id, get, update and
delete all yield the Data Access Layer's not-found error with the store
untouched, and the corresponding endpoints answer 404. -/
theorem missing_id_not_found (s : Store) (property_id : Nat)
    (u : PropertyUpdateRequest) (raw : RawPropertyUpdateRequest)
    (hraw : validatePropertyUpdateRequest raw = .ok u)
    (h : ∀ p ∈ s.rows, p.id ≠ some property_id) :
    get_property_by_id s property_id = .error .notFound ∧
    update_property s property_id u = (s, .error .notFound) ∧
    delete_property s property_id = (s, .error .notFound) ∧
    read_property s property_id = (s, .notFoundResp) ∧
    patch_property s property_id raw = (s, .notFoundResp) ∧
    delete_property_endpoint s property_id = (s, .notFoundResp) ∧
    Response.status .notFoundResp = 404 := by
  have hfind := find?_hasId_none h
  have hany : s.rows.any (fun p => p.hasId property_id) = false := by
    rw [List.any_eq_false]
    intro p hp
    simp [hasId_eq_false (h p hp)]
  have hget : get_property_by_id s property_id = .error .notFound := by
    simp [get_property_by_id, hfind]
  have hupd : update_property s property_id u = (s, .error .notFound) := by
    simp [update_property, hfind]
  have hdel : delete_property s property_id = (s, .error .notFound) := by
    simp [delete_property, hany]
  refine ⟨hget, hupd, hdel, ?_, ?_, ?_, rfl⟩
  · simp [read_property, hget]
  · simp [patch_property, hraw, hupd]
  · simp [delete_property_endpoint, hdel]

theorem missing_id_not_found_witness :
    get_property_by_id emptyStore 999 = .error .notFound ∧
    update_property emptyStore 999 updateAbsent = (emptyStore, .error .notFound) ∧
    delete_property emptyStore 999 = (emptyStore, .error .notFound) ∧
    read_property emptyStore 999 = (emptyStore, .notFoundResp) ∧
    patch_property emptyStore 999 rawUpdateAbsent = (emptyStore, .notFoundResp) ∧
    delete_property_endpoint emptyStore 999 = (emptyStore, .notFoundResp) ∧
    Response.status .notFoundResp = 404 :=
  missing_id_not_found emptyStore 999 updateAbsent rawUpdateAbsent rfl
    (by intro p hp; simp [emptyStore] at hp)

/-- C7: deleting a non-existent id is idempotent in its error behaviour:
the first call answers not-found and leaves the store unchanged, and the
repeated call answers the very same not-found outcome. -/
theorem delete_missing_idempotent (s : Store) (property_id : Nat)
    (h : ∀ p ∈ s.rows, p.id ≠ some property_id) :
    delete_property s property_id = (s, .error .notFound) ∧
    delete_property (delete_property s property_id).1 property_id =
      (s, .error .notFound) := by
  have hany : s.rows.any (fun p => p.hasId property_id) = false := by
    rw [List.any_eq_false]
    intro p hp
    simp [hasId_eq_false (h p hp)]
  have h1 : delete_property s property_id = (s, .error .notFound) := by
    simp [delete_property, hany]
  exact ⟨h1, by rw [h1]; exact h1⟩

theorem delete_missing_idempotent_witness :
    delete_property emptyStore 42 = (emptyStore, .error .notFound) ∧
    delete_property (delete_property emptyStore 42).1 42 =
      (emptyStore, .error .notFound) :=
  delete_missing_idempotent emptyStore 42 (by intro p hp; simp [emptyStore] at hp)

/-- C6: each of the five Data Access Layer operations is atomic in the
model: a call either succeeds (all of its writes committed in the
returned store) or fails with the store exactly as before the call and
the error handed back unchanged. -/
theorem crud_ops_atomic (s : Store) (c : CrudCall) :
    (∃ r, (runCrud s c).2 = .ok r) ∨
    ((runCrud s c).1 = s ∧ ∃ e, (runCrud s c).2 = .error e) := by
  cases c with
  | add req => exact .inl ⟨_, rfl⟩
  | listAll limit skip => exact .inl ⟨_, rfl⟩
  | get property_id =>
      cases hf : s.rows.find? (fun p => p.hasId property_id) with
      | some p =>
          exact .inl ⟨.one p, by simp [runCrud, get_property_by_id, hf, Except.map]⟩
      | none =>
          exact .inr ⟨rfl, .notFound, by simp [runCrud, get_property_by_id, hf, Except.map]⟩
  | update property_id u =>
      cases hf : s.rows.find? (fun p => p.hasId property_id) with
      | some p =>
          exact .inl ⟨.one (applyUpdate p u), by simp [runCrud, update_property, hf, Except.map]⟩
      | none =>
          exact .inr ⟨by simp [runCrud, update_property, hf, Except.map],
            .notFound, by simp [runCrud, update_property, hf, Except.map]⟩
  | delete property_id =>
      by_cases ha : s.rows.any (fun p => p.hasId property_id)
      · exact .inl ⟨.done true, by simp [runCrud, delete_property, ha, Except.map]⟩
      · exact .inr ⟨by simp [runCrud, delete_property, ha, Except.map],
          .notFound, by simp [runCrud, delete_property, ha, Except.map]⟩

theorem validatePlainField_ok {α : Type} {fieldName : String}
    {w : WireField α} {f : FieldUpdate α}
    (h : validatePlainField fieldName w = .ok f) :
    (w = .absent ∧ f = .absent) ∨ (∃ v, w = .val v ∧ f = .set v) := by
  cases w with
  | absent =>
      simp [validatePlainField] at h
      exact .inl ⟨rfl, h.symm⟩
  | null => simp [validatePlainField] at h
  | val v =>
      simp [validatePlainField] at h
      exact .inr ⟨v, rfl, h.symm⟩

theorem validateBedroomsField_ok {w : WireField String}
    {f : FieldUpdate NumBedrooms}
    (h : validateBedroomsField w = .ok f) :
    (w = .absent ∧ f = .absent) ∨
    (∃ b nb, w = .val b ∧ parseNumBedrooms b = some nb ∧ f = .set nb) := by
  cases w with
  | absent =>
      simp [validateBedroomsField] at h
      exact .inl ⟨rfl, h.symm⟩
  | null => simp [validateBedroomsField] at h
  | val b =>
      cases hp : parseNumBedrooms b with
      | some nb =>
          simp [validateBedroomsField, hp] at h
          exact .inr ⟨b, nb, rfl, hp, h.symm⟩
      | none => simp [validateBedroomsField, hp] at h

theorem plainField_spec {α : Type} {w : WireField α} {f : FieldUpdate α}
    (hd : (w = .absent ∧ f = .absent) ∨ (∃ v, w = .val v ∧ f = .set v)) :
    (w = .absent ↔ f = .absent) ∧ (∀ v, w = .val v → f = .set v) ∧
    w ≠ .null := by
  rcases hd with ⟨rfl, rfl⟩ | ⟨v, rfl, rfl⟩
  · refine ⟨by simp, ?_, by simp⟩
    intro v hv
    exact absurd hv (by simp)
  · refine ⟨by simp, ?_, by simp⟩
    intro v2 hv
    injection hv with h2
    subst h2
    rfl

theorem bedroomsField_spec {w : WireField String} {f : FieldUpdate NumBedrooms}
    (hd : (w = .absent ∧ f = .absent) ∨
      (∃ b nb, w = .val b ∧ parseNumBedrooms b = some nb ∧ f = .set nb)) :
    (w = .absent ↔ f = .absent) ∧
    (∀ b, w = .val b → ∃ nb, parseNumBedrooms b = some nb ∧ f = .set nb) ∧
    w ≠ .null := by
  rcases hd with ⟨rfl, rfl⟩ | ⟨b, nb, rfl, hp, rfl⟩
  · refine ⟨by simp, ?_, by simp⟩
    intro b hb
    exact absurd hb (by simp)
  · refine ⟨by simp, ?_, by simp⟩
    intro b2 hb
    injection hb with h2
    subst h2
    exact ⟨nb, hp, rfl⟩

theorem validateUpdate_error_of_bad_bedrooms {raw : RawPropertyUpdateRequest}
    {b : String} (hb : raw.number_bedrooms = .val b)
    (hp : parseNumBedrooms b = none) :
    ∃ e, validatePropertyUpdateRequest raw = .error e := by
  have hbed : validateBedroomsField raw.number_bedrooms =
      .error (.invalidEnum "number_bedrooms" b) := by
    rw [hb]
    simp [validateBedroomsField, hp]
  cases hd : validatePlainField "description" raw.description with
  | error e => exact ⟨e, by simp [validatePropertyUpdateRequest, hd]⟩
  | ok d =>
      exact ⟨.invalidEnum "number_bedrooms" b,
        by simp [validatePropertyUpdateRequest, hd, hbed]⟩

/-- C2: any create or update payload whose `number_bedrooms` string lies
outside the closed enumeration fails schema validation; the endpoints
answer 422 and hand back the store untouched, so no Data Access Layer
operation runs. -/
theorem invalid_bedrooms_rejected (s : Store) (property_id : Nat) (b : String)
    (raw : RawPropertyRequest) (rawU : RawPropertyUpdateRequest)
    (hraw : raw.number_bedrooms = b) (hrawU : rawU.number_bedrooms = .val b)
    (hb : b ∉ ["T0", "T1", "T2", "T3", "T4", "T5", "T6", "T6+"]) :
    parseNumBedrooms b = none ∧
    validatePropertyRequest raw = .error (.invalidEnum "number_bedrooms" b) ∧
    post_property s raw = (s, .validationFailed (.invalidEnum "number_bedrooms" b)) ∧
    (∃ e, patch_property s property_id rawU = (s, .validationFailed e)) ∧
    Response.status (.validationFailed (.invalidEnum "number_bedrooms" b)) = 422 := by
  simp only [List.mem_cons, List.mem_singleton, not_or] at hb
  obtain ⟨h0, h1, h2, h3, h4, h5, h6, h7⟩ := hb
  have hp : parseNumBedrooms b = none := by
    simp [parseNumBedrooms, h0, h1, h2, h3, h4, h5, h6, h7]
  have hval : validatePropertyRequest raw =
      .error (.invalidEnum "number_bedrooms" b) := by
    simp [validatePropertyRequest, hraw, hp]
  obtain ⟨e, hpe⟩ := validateUpdate_error_of_bad_bedrooms hrawU hp
  exact ⟨hp, hval, by simp [post_property, hval],
    ⟨e, by simp [patch_property, hpe]⟩, rfl⟩

theorem invalid_bedrooms_rejected_witness :
    parseNumBedrooms "T9" = none ∧
    validatePropertyRequest rawBadBedrooms =
      .error (.invalidEnum "number_bedrooms" "T9") ∧
    post_property emptyStore rawBadBedrooms =
      (emptyStore, .validationFailed (.invalidEnum "number_bedrooms" "T9")) ∧
    (∃ e, patch_property emptyStore 1 rawUpdateBadBedrooms =
      (emptyStore, .validationFailed e)) ∧
    Response.status (.validationFailed (.invalidEnum "number_bedrooms" "T9")) = 422 :=
  invalid_bedrooms_rejected emptyStore 1 "T9" rawBadBedrooms rawUpdateBadBedrooms
    rfl rfl (by decide)

/-- C8: in a validated update request, each omitted wire field is marked
with the distinct omitted constructor, each supplied value with the set
constructor, and an explicit null never validates, so the Data Access
Layer can tell an omitted field from a set one; a present
`number_bedrooms` must still parse against the enumeration. -/
theorem update_request_presence (raw : RawPropertyUpdateRequest)
    (u : PropertyUpdateRequest)
    (h : validatePropertyUpdateRequest raw = .ok u) :
    (raw.description = .absent ↔ u.description = .absent) ∧
    (∀ v, raw.description = .val v → u.description = .set v) ∧
    raw.description ≠ .null ∧
    (raw.number_bedrooms = .absent ↔ u.number_bedrooms = .absent) ∧
    (∀ b, raw.number_bedrooms = .val b →
      ∃ nb, parseNumBedrooms b = some nb ∧ u.number_bedrooms = .set nb) ∧
    raw.number_bedrooms ≠ .null ∧
    (raw.price = .absent ↔ u.price = .absent) ∧
    (∀ v, raw.price = .val v → u.price = .set v) ∧
    raw.price ≠ .null ∧
    (raw.area = .absent ↔ u.area = .absent) ∧
    (∀ v, raw.area = .val v → u.area = .set v) ∧
    raw.area ≠ .null ∧
    (raw.location = .absent ↔ u.location = .absent) ∧
    (∀ v, raw.location = .val v → u.location = .set v) ∧
    raw.location ≠ .null := by
  unfold validatePropertyUpdateRequest at h
  cases hd : validatePlainField "description" raw.description with
  | error e => rw [hd] at h; exact absurd h (by simp)
  | ok d =>
  rw [hd] at h
  cases hnb : validateBedroomsField raw.number_bedrooms with
  | error e => rw [hnb] at h; exact absurd h (by simp)
  | ok nb =>
  rw [hnb] at h
  cases hpr : validatePlainField "price" raw.price with
  | error e => rw [hpr] at h; exact absurd h (by simp)
  | ok pr =>
  rw [hpr] at h
  cases har : validatePlainField "area" raw.area with
  | error e => rw [har] at h; exact absurd h (by simp)
  | ok ar =>
  rw [har] at h
  cases hlo : validatePlainField "location" raw.location with
  | error e => rw [hlo] at h; exact absurd h (by simp)
  | ok lo =>
  rw [hlo] at h
  simp only [Except.ok.injEq] at h
  subst h
  obtain ⟨d1, d2, d3⟩ := plainField_spec (validatePlainField_ok hd)
  obtain ⟨b1, b2, b3⟩ := bedroomsField_spec (validateBedroomsField_ok hnb)
  obtain ⟨p1, p2, p3⟩ := plainField_spec (validatePlainField_ok hpr)
  obtain ⟨a1, a2, a3⟩ := plainField_spec (validatePlainField_ok har)
  obtain ⟨l1, l2, l3⟩ := plainField_spec (validatePlainField_ok hlo)
  exact ⟨d1, d2, d3, b1, b2, b3, p1, p2, p3, a1, a2, a3, l1, l2, l3⟩

theorem update_request_presence_witness :
    (rawUpdateSubset.description = .absent ↔ updateSubset.description = .absent) ∧
    (∀ v, rawUpdateSubset.description = .val v → updateSubset.description = .set v) ∧
    rawUpdateSubset.description ≠ .null ∧
    (rawUpdateSubset.number_bedrooms = .absent ↔ updateSubset.number_bedrooms = .absent) ∧
    (∀ b, rawUpdateSubset.number_bedrooms = .val b →
      ∃ nb, parseNumBedrooms b = some nb ∧ updateSubset.number_bedrooms = .set nb) ∧
    rawUpdateSubset.number_bedrooms ≠ .null ∧
    (rawUpdateSubset.price = .absent ↔ updateSubset.price = .absent) ∧
    (∀ v, rawUpdateSubset.price = .val v → updateSubset.price = .set v) ∧
    rawUpdateSubset.price ≠ .null ∧
    (rawUpdateSubset.area = .absent ↔ updateSubset.area = .absent) ∧
    (∀ v, rawUpdateSubset.area = .val v → updateSubset.area = .set v) ∧
    rawUpdateSubset.area ≠ .null ∧
    (rawUpdateSubset.location = .absent ↔ updateSubset.location = .absent) ∧
    (∀ v, rawUpdateSubset.location = .val v → updateSubset.location = .set v) ∧
    rawUpdateSubset.location ≠ .null :=
  update_request_presence rawUpdateSubset updateSubset rfl

/-- C9: schema validation puts no sign or bound constraint on price or
area: a create payload with negative price or non-positive area (and a
valid bedrooms value) validates, and both numbers are stored exactly as
supplied. -/
theorem numeric_fields_unconstrained (s : Store) (raw : RawPropertyRequest)
    (nb : NumBedrooms) (hnb : parseNumBedrooms raw.number_bedrooms = some nb)
    (hneg : raw.price < 0 ∨ raw.area ≤ 0) :
    ∃ req, validatePropertyRequest raw = .ok req ∧
      req.price = raw.price ∧ req.area = raw.area ∧
      (add_property s req).2.price = raw.price ∧
      (add_property s req).2.area = raw.area ∧
      ∃ p ∈ (add_property s req).1.rows, p.price = raw.price ∧ p.area = raw.area := by
  have hval : validatePropertyRequest raw =
      .ok { description := raw.description
            number_bedrooms := nb
            price := raw.price
            area := raw.area
            location := raw.location } := by
    simp [validatePropertyRequest, hnb]
  refine ⟨_, hval, rfl, rfl, rfl, rfl, ?_⟩
  refine ⟨(add_property s { description := raw.description
                            number_bedrooms := nb
                            price := raw.price
                            area := raw.area
                            location := raw.location }).2, ?_, rfl, rfl⟩
  simp [add_property]

theorem numeric_fields_unconstrained_witness :
    ∃ req, validatePropertyRequest rawNegative = .ok req ∧
      req.price = rawNegative.price ∧ req.area = rawNegative.area ∧
      (add_property emptyStore req).2.price = rawNegative.price ∧
      (add_property emptyStore req).2.area = rawNegative.area ∧
      ∃ p ∈ (add_property emptyStore req).1.rows,
        p.price = rawNegative.price ∧ p.area = rawNegative.area :=
  numeric_fields_unconstrained emptyStore rawNegative .t1 rfl
    (.inl (by norm_num [rawNegative]))

/-- C10: the GET / root route of `backend/main.py` answers the fixed body
message "Hello World!" with status 200, for every store state, and leaves
the store untouched. -/
theorem root_endpoint_hello (s : Store) :
    root_endpoint s = (s, .messageResp 200 { message := "Hello World!" }) ∧
    get_root.message = "Hello World!" :=
  ⟨rfl, rfl⟩
